import Mathlib

/-!
Shallow embedding of the deskgpt repository (configuration loading, the
typed command/result data model, LLM-plan validation, the browser
controller's action dispatch with its click-fallback algorithm, teardown,
and the task orchestrator's result aggregation), together with theorems
settling the specification claims about it.

External effects (the browser driver, the process environment, the LLM
reply) are modelled as explicit oracle inputs; every Python function that
the claims touch is translated into a computable Lean definition.
-/

namespace DeskGPT

/-- An anchor-element record produced by the links extraction
(src/deskgpt/core/browser_controller.py, the evaluate call in the
ExtractType.LINKS branch): text (possibly None, trimmed), href, title. -/
structure LinkEntry where
  text : Option String
  href : String
  title : String
deriving DecidableEq, Repr

/-- A Python value as it appears in a CommandResult data payload. -/
inductive PyVal where
  | s (v : String)
  | i (v : Int)
  | null
  | linkList (v : List LinkEntry)
deriving DecidableEq, Repr

/-- src/deskgpt/types/commands.py ActionType (str enum, the seven tags). -/
inductive ActionType where
  | navigate
  | click
  | type
  | scroll
  | wait
  | screenshot
  | extract
deriving DecidableEq, Repr

/-- src/deskgpt/types/commands.py ScrollDirection (str enum). -/
inductive ScrollDirection where
  | up
  | down
deriving DecidableEq, Repr

/-- src/deskgpt/types/commands.py ExtractType (str enum). -/
inductive ExtractType where
  | text
  | html
  | links
deriving DecidableEq, Repr

/-- src/deskgpt/types/commands.py TaskStatus (str enum). -/
inductive TaskStatus where
  | pending
  | running
  | completed
  | failed
deriving DecidableEq, Repr

/-- The .value of the ScrollDirection str enum. -/
def ScrollDirection.value : ScrollDirection → String
  | ScrollDirection.up => "up"
  | ScrollDirection.down => "down"

/-- The .value of the ExtractType str enum. -/
def ExtractType.value : ExtractType → String
  | ExtractType.text => "text"
  | ExtractType.html => "html"
  | ExtractType.links => "links"

/-- src/deskgpt/types/commands.py WebAction (pydantic model): `type` is
required, every other field is Optional with default None. -/
structure WebAction where
  type : ActionType
  selector : Option String := Option.none
  text : Option String := Option.none
  url : Option String := Option.none
  wait_time : Option Int := Option.none
  scroll_direction : Option ScrollDirection := Option.none
  extract_type : Option ExtractType := Option.none
deriving DecidableEq, Repr

/-- src/deskgpt/types/commands.py CommandResult (pydantic model). -/
structure CommandResult where
  success : Bool
  data : Option (List (String × PyVal)) := Option.none
  error : Option String := Option.none
  screenshot : Option String := Option.none
deriving DecidableEq, Repr

/-- Python truthiness test for an Optional[str]: `not x` is True exactly
when x is None or the empty string. -/
def pyFalsyStr : Option String → Bool
  | Option.none => true
  | Option.some s => s.isEmpty

/-- Python `x or d` for x : Optional[int] — 0 is falsy, so both None and 0
are replaced by the default (browser_controller.py line 79). -/
def pyOrInt : Option Int → Int → Int
  | Option.none, d => d
  | Option.some v, d => if v = 0 then d else v

/-- Python `x or d` for an Optional enum member: every member of the str
enums here is a non-empty string, hence truthy, so only None is replaced. -/
def pyOrD {α : Type} : Option α → α → α
  | Option.none, d => d
  | Option.some v, _ => v

/-- The final-status computation of CommandParser.execute_task
(src/deskgpt/core/command_parser.py lines 98-115): count successful
results, compare with the total, and pick completed/completed/failed.
Note the first branch has no guard that the total is positive. -/
def computeStatus (results : List CommandResult) : TaskStatus :=
  let successful_actions := results.countP (fun r => r.success)
  let total_actions := results.length
  if successful_actions = total_actions then TaskStatus.completed
  else if 0 < successful_actions then TaskStatus.completed
  else TaskStatus.failed

/-- The synthetic failure result appended by execute_task's except branch
(src/deskgpt/core/command_parser.py lines 126-129). -/
def syntheticFailure (error_msg : String) : CommandResult :=
  { success := false, error := Option.some error_msg }

/-- The action-execution loop of execute_task (command_parser.py lines
76-96): iterate over the plan in order, executing each action and
appending its result; nothing in the loop stops on a failed result. -/
def run_actions (exec : WebAction → CommandResult) (actions : List WebAction) : List CommandResult :=
  actions.foldl (fun results a => results ++ [exec a]) []

/-- A process environment: a partial map from variable names to values. -/
def Env : Type := String → Option String

/-- Python os.getenv with a default. -/
def getenv (env : Env) (name d : String) : String :=
  (env name).getD d

/-- Python str.startswith, on the character sequence. -/
def strStarts (s pre : String) : Bool :=
  pre.toList.isPrefixOf s.toList

/-- Strip leading and trailing whitespace from a character sequence
(Python str.strip with no argument). -/
def stripWs (cs : List Char) : List Char :=
  ((cs.dropWhile Char.isWhitespace).reverse.dropWhile Char.isWhitespace).reverse

/-- Python int(str) on a decimal literal: surrounding whitespace allowed,
an optional sign, then one or more digits; anything else raises
ValueError.  (Underscore digit grouping is not modelled; no input used in
this development contains underscores.) -/
def pyParseInt (s : String) : Except String Int :=
  let signAndDigits : Int × List Char :=
    match stripWs s.toList with
    | '-' :: rest => (-1, rest)
    | '+' :: rest => (1, rest)
    | cs => (1, cs)
  let digits := signAndDigits.2
  if 0 < digits.length ∧ digits.all Char.isDigit then
    Except.ok (signAndDigits.1 * (Int.ofNat (digits.foldl (fun n c => 10 * n + (c.toNat - 48)) 0)))
  else Except.error ("invalid literal for int: " ++ s)

/-- src/deskgpt/config/config.py BrowserConfig defaults. -/
structure BrowserConfig where
  headless : Bool := false
  timeout : Int := 30000
  viewport_width : Int := 1920
  viewport_height : Int := 1080
deriving DecidableEq, Repr

/-- src/deskgpt/config/config.py LoggingConfig defaults. -/
structure LoggingConfig where
  level : String := "INFO"
deriving DecidableEq, Repr

/-- src/deskgpt/config/config.py Config. -/
structure Config where
  openai_api_key : String
  browser : BrowserConfig := {}
  logging : LoggingConfig := {}
deriving DecidableEq, Repr

/-- Config.from_env (config.py lines 28-42): reads the environment with
defaults; the int() conversions can raise, which the Except models. -/
def from_env (env : Env) : Except String Config := do
  let timeout ← pyParseInt (getenv env ("BROWSER_TIMEOUT") ("30000"))
  let vw ← pyParseInt (getenv env ("VIEWPORT_WIDTH") ("1920"))
  let vh ← pyParseInt (getenv env ("VIEWPORT_HEIGHT") ("1080"))
  Except.ok
    { openai_api_key := getenv env ("OPENAI_API_KEY") ("")
      browser :=
        { headless := env ("NODE_ENV") == Option.some ("production")
          timeout := timeout
          viewport_width := vw
          viewport_height := vh }
      logging := { level := getenv env ("LOG_LEVEL") ("INFO") } }

/-- validate_config (config.py lines 45-48): raises exactly when the
credential is empty. -/
def validate_config (c : Config) : Except String Unit :=
  if c.openai_api_key.isEmpty then
    Except.error ("OPENAI_API_KEY environment variable is required")
  else Except.ok ()

/-- The five click attempts BrowserController._click can make
(browser_controller.py lines 113-158), in source order. -/
inductive ClickAttempt where
  | plain
  | textExact
  | textPart
  | xpath
  | roleBtn
deriving DecidableEq, Repr

/-- Oracle for the page's reaction to each click attempt: for the locator
string actually passed, Option.none means the driver call succeeds and
Option.some e means it raises with description e. -/
structure ClickPage where
  plainFail : String → Option String
  textExactFail : String → Option String
  textPartFail : String → Option String
  xpathFail : String → Option String
  roleBtnFail : String → Option String

/-- True when the selector carries an explicit engine prefix
(browser_controller.py line 127). -/
def hasEngine (selector : String) : Bool :=
  strStarts selector ("text=") || strStarts selector ("xpath=") || strStarts selector ("css=")

/-- The text candidate used by the text fallbacks: Python
selector.strip().strip(quote set) — whitespace trimmed, then any leading
or trailing double/single quotes removed (browser_controller.py line 128). -/
def textCandidate (selector : String) : String :=
  let t := stripWs selector.toList
  let isQuote : Char → Bool := fun c => c == '"' || c == '\''
  String.mk (((t.dropWhile isQuote).reverse.dropWhile isQuote).reverse)

/-- The xpath locator string used by the xpath fallback
(browser_controller.py line 142). -/
def xpathSelector (selector : String) : String :=
  if strStarts selector ("xpath=") then selector else ("xpath=") ++ selector

/-- Mutable state of the fallback block in _click: the clicked flag, the
accumulated errors list, and (for the ordering claims) the attempts made. -/
structure FbState where
  clicked : Bool
  errors : List String
  trace : List ClickAttempt
deriving DecidableEq, Repr

/-- One guarded fallback attempt: skipped when already clicked; on success
sets clicked, on failure appends its labelled error description. -/
def fbTry (st : FbState) (att : ClickAttempt) (outcome : Option String) (label : String) : FbState :=
  if st.clicked then st
  else
    match outcome with
    | Option.none => { st with clicked := true, trace := st.trace ++ [att] }
    | Option.some e => { st with errors := st.errors ++ [label ++ e], trace := st.trace ++ [att] }

/-- The success result _click returns after any attempt lands
(browser_controller.py lines 161-164). -/
def clickSuccess (selector : String) : CommandResult :=
  { success := true
    data := Option.some [("selector", PyVal.s selector), ("action", PyVal.s ("clicked"))] }

/-- Outcome of one _click call: the attempts made in order and either the
success result or the raised error's description. -/
structure ClickOutcome where
  trace : List ClickAttempt
  result : Except String CommandResult

/-- BrowserController._click (browser_controller.py lines 113-164): try
the selector verbatim; on failure, when the selector has no engine prefix
try exact text then partial text; then, if still unclicked, xpath; then a
role-based button match; if still unclicked raise with the concatenation
of the recorded fallback errors.  Note the initial attempt's exception is
discarded by the bare except. -/
def clickRun (cp : ClickPage) (selector : String) : ClickOutcome :=
  match cp.plainFail selector with
  | Option.none => ⟨[ClickAttempt.plain], Except.ok (clickSuccess selector)⟩
  | Option.some _ =>
    let st0 : FbState := ⟨false, [], [ClickAttempt.plain]⟩
    let st1 :=
      if hasEngine selector then st0
      else
        let stx := fbTry st0 ClickAttempt.textExact (cp.textExactFail (textCandidate selector)) ("text exact failed: ")
        fbTry stx ClickAttempt.textPart (cp.textPartFail (textCandidate selector)) ("text partial failed: ")
    let st2 := fbTry st1 ClickAttempt.xpath (cp.xpathFail (xpathSelector selector)) ("xpath failed: ")
    let st3 := fbTry st2 ClickAttempt.roleBtn (cp.roleBtnFail selector) ("role button exact failed: ")
    if st3.clicked then ⟨st3.trace, Except.ok (clickSuccess selector)⟩
    else
      ⟨st3.trace,
        Except.error (("Failed to click element with provided selector and fallbacks. ")
          ++ String.intercalate ("; ") st3.errors)⟩

/-- An element handle as seen by _extract: its text content (possibly
None) and its inner markup. -/
structure PageElem where
  textContent : Option String
  innerHtml : String
deriving DecidableEq, Repr

/-- Oracle for the whole page/driver as one execute_action call observes
it: for each driver call, Option.none means success and Option.some e a
raised error with description e, plus the values successful calls return. -/
structure PageOracle where
  gotoFail : String → Option String
  pageUrl : String
  click : ClickPage
  waitSelFail : String → Option String
  focusClickFail : String → Option String
  fillFail : Option String
  evalScrollFail : Option String
  shotFail : Option String
  timestamp : String
  querySelector : String → Option PageElem
  queryFail : Option String
  pageEvalFail : Option String
  bodyText : String
  pageHtml : String
  linksVal : List LinkEntry

/-- BrowserController._navigate (lines 100-111): prepend https:// when the
scheme is missing, navigate, return the resulting current URL.  A None url
(possible when dispatch passes action.url straight through) raises at the
startswith call. -/
def navigateRun (pg : PageOracle) (url : Option String) : Except String CommandResult :=
  match url with
  | Option.none => Except.error ("AttributeError: NoneType object has no attribute startswith")
  | Option.some u =>
    let u2 := if strStarts u ("http://") || strStarts u ("https://") then u else ("https://") ++ u
    match pg.gotoFail u2 with
    | Option.some e => Except.error e
    | Option.none =>
      Except.ok
        { success := true
          data := Option.some [("url", PyVal.s pg.pageUrl), ("action", PyVal.s ("navigated"))] }

/-- The click sub-operation as invoked from dispatch: a None selector
raises inside the driver call chain. -/
def clickSub (pg : PageOracle) (selector : Option String) : Except String CommandResult :=
  match selector with
  | Option.none => Except.error ("TypeError: selector must be a string")
  | Option.some s => (clickRun pg.click s).result

/-- BrowserController._type (lines 166-178): wait for the selector, click
to focus, select-all, fill; success echoes selector and text. -/
def typeRun (pg : PageOracle) (selector text : Option String) : Except String CommandResult :=
  match selector with
  | Option.none => Except.error ("TypeError: selector must be a string")
  | Option.some s =>
    match pg.waitSelFail s with
    | Option.some e => Except.error e
    | Option.none =>
      match pg.focusClickFail s with
      | Option.some e => Except.error e
      | Option.none =>
        match text with
        | Option.none => Except.error ("TypeError: fill text must be a string")
        | Option.some tx =>
          match pg.fillFail with
          | Option.some e => Except.error e
          | Option.none =>
            Except.ok
              { success := true
                data := Option.some
                  [("selector", PyVal.s s), ("text", PyVal.s tx), ("action", PyVal.s ("typed"))] }

/-- BrowserController._scroll (lines 180-190): signed 500-pixel delta by
direction, window scroll, success echoing direction and amount. -/
def scrollRun (pg : PageOracle) (direction : ScrollDirection) : Except String CommandResult :=
  let scroll_amount : Int := if direction = ScrollDirection.down then 500 else -500
  match pg.evalScrollFail with
  | Option.some e => Except.error e
  | Option.none =>
    Except.ok
      { success := true
        data := Option.some
          [("direction", PyVal.s direction.value), ("scroll_amount", PyVal.i scroll_amount)] }

/-- BrowserController._wait (lines 192-199): sleep, then success echoing
the wait time. -/
def waitRun (milliseconds : Int) : Except String CommandResult :=
  Except.ok { success := true, data := Option.some [("wait_time", PyVal.i milliseconds)] }

/-- BrowserController._screenshot (lines 201-213): capture a full-page
image under ./screenshots, success with the filename, the path, and the
dedicated screenshot field set to the path. -/
def screenshotRun (pg : PageOracle) : Except String CommandResult :=
  let filename := ("screenshot-") ++ pg.timestamp ++ (".png")
  let filepath := ("screenshots/") ++ filename
  match pg.shotFail with
  | Option.some e => Except.error e
  | Option.none =>
    Except.ok
      { success := true
        data := Option.some [("filename", PyVal.s filename), ("path", PyVal.s filepath)]
        screenshot := Option.some filepath }

/-- The data payload computed by _extract (lines 215-243), by extract
type and optional selector; data stays None when a selector matches no
element. -/
def extractDataOf (pg : PageOracle) (extract_type : ExtractType) (selector : Option String) :
    Except String PyVal :=
  match extract_type with
  | ExtractType.text =>
    match selector with
    | Option.some s =>
      match pg.queryFail with
      | Option.some e => Except.error e
      | Option.none =>
        match pg.querySelector s with
        | Option.some el =>
          Except.ok (match el.textContent with
            | Option.some t => PyVal.s t
            | Option.none => PyVal.null)
        | Option.none => Except.ok PyVal.null
    | Option.none =>
      match pg.pageEvalFail with
      | Option.some e => Except.error e
      | Option.none => Except.ok (PyVal.s pg.bodyText)
  | ExtractType.html =>
    match selector with
    | Option.some s =>
      match pg.queryFail with
      | Option.some e => Except.error e
      | Option.none =>
        match pg.querySelector s with
        | Option.some el => Except.ok (PyVal.s el.innerHtml)
        | Option.none => Except.ok PyVal.null
    | Option.none =>
      match pg.pageEvalFail with
      | Option.some e => Except.error e
      | Option.none => Except.ok (PyVal.s pg.pageHtml)
  | ExtractType.links =>
    match pg.pageEvalFail with
    | Option.some e => Except.error e
    | Option.none => Except.ok (PyVal.linkList pg.linksVal)

/-- BrowserController._extract (lines 215-248): compute the payload and
return success with the extract type and the content. -/
def extractRun (pg : PageOracle) (extract_type : ExtractType) (selector : Option String) :
    Except String CommandResult :=
  match extractDataOf pg extract_type selector with
  | Except.error e => Except.error e
  | Except.ok v =>
    Except.ok
      { success := true
        data := Option.some [("extract_type", PyVal.s extract_type.value), ("content", v)] }

/-- The body of execute_action's try block (browser_controller.py lines
69-91): dispatch on the action type, applying the falsy-or defaults for
scroll direction, wait time, and extract type. -/
def actionDispatch (pg : PageOracle) (action : WebAction) : Except String CommandResult :=
  match action.type with
  | ActionType.navigate => navigateRun pg action.url
  | ActionType.click => clickSub pg action.selector
  | ActionType.type => typeRun pg action.selector action.text
  | ActionType.scroll => scrollRun pg (pyOrD action.scroll_direction ScrollDirection.down)
  | ActionType.wait => waitRun (pyOrInt action.wait_time 1000)
  | ActionType.screenshot => screenshotRun pg
  | ActionType.extract => extractRun pg (pyOrD action.extract_type ExtractType.text) action.selector

/-- BrowserController.execute_action (lines 64-98): raise RuntimeError
when no page is set (the Except.error case, which propagates); otherwise
run the dispatch and convert any raised error into a failed CommandResult
carrying its description. -/
def execute_action (page : Option PageOracle) (action : WebAction) : Except String CommandResult :=
  match page with
  | Option.none => Except.error ("Browser not initialized")
  | Option.some pg =>
    match actionDispatch pg action with
    | Except.ok r => Except.ok r
    | Except.error e => Except.ok { success := false, error := Option.some e }

/-- LLMClient._is_valid_action (llm_client.py lines 113-140).  The
type-membership test is always true for a constructed WebAction; the
required-field tests use Python truthiness (None or empty string fails);
the enum membership tests reject a None field, since None is not a member
of the enum (value-based containment). -/
def is_valid_action (a : WebAction) : Bool :=
  if a.type == ActionType.navigate && pyFalsyStr a.url then false
  else if (a.type == ActionType.click || a.type == ActionType.type) && pyFalsyStr a.selector then false
  else if a.type == ActionType.type && pyFalsyStr a.text then false
  else if a.type == ActionType.scroll && a.scroll_direction.isNone then false
  else if a.type == ActionType.extract && a.extract_type.isNone then false
  else true

/-- LLMClient._validate_actions (llm_client.py lines 101-111): keep the
valid actions, in order, dropping each invalid one individually. -/
def validate_actions (actions : List WebAction) : List WebAction :=
  actions.foldl (fun valid_actions a => if is_valid_action a then valid_actions ++ [a] else valid_actions) []

/-- A raw action object as decoded from the LLM's JSON reply, before
pydantic model construction: the type and the enum sub-fields are still
strings. -/
structure RawAction where
  type : String
  selector : Option String := Option.none
  text : Option String := Option.none
  url : Option String := Option.none
  wait_time : Option Int := Option.none
  scroll_direction : Option String := Option.none
  extract_type : Option String := Option.none
deriving DecidableEq, Repr

/-- Pydantic coercion of the type tag: one of the seven literals or a
validation error. -/
def ActionType.ofString : String → Option ActionType
  | "navigate" => Option.some ActionType.navigate
  | "click" => Option.some ActionType.click
  | "type" => Option.some ActionType.type
  | "scroll" => Option.some ActionType.scroll
  | "wait" => Option.some ActionType.wait
  | "screenshot" => Option.some ActionType.screenshot
  | "extract" => Option.some ActionType.extract
  | _ => Option.none

/-- Pydantic coercion of a scroll-direction string. -/
def ScrollDirection.ofString : String → Option ScrollDirection
  | "up" => Option.some ScrollDirection.up
  | "down" => Option.some ScrollDirection.down
  | _ => Option.none

/-- Pydantic coercion of an extract-type string. -/
def ExtractType.ofString : String → Option ExtractType
  | "text" => Option.some ExtractType.text
  | "html" => Option.some ExtractType.html
  | "links" => Option.some ExtractType.links
  | _ => Option.none

/-- Pydantic construction WebAction(**raw) (llm_client.py line 47): an
out-of-range type tag or enum sub-field raises a ValidationError. -/
def webActionOfRaw (raw : RawAction) : Except String WebAction := do
  let t ←
    match ActionType.ofString raw.type with
    | Option.some t => Except.ok t
    | Option.none => Except.error (("validation error for WebAction type: ") ++ raw.type)
  let sd ←
    match raw.scroll_direction with
    | Option.none => Except.ok Option.none
    | Option.some s =>
      match ScrollDirection.ofString s with
      | Option.some d => Except.ok (Option.some d)
      | Option.none => Except.error (("validation error for WebAction scroll_direction: ") ++ s)
  let et ←
    match raw.extract_type with
    | Option.none => Except.ok Option.none
    | Option.some s =>
      match ExtractType.ofString s with
      | Option.some e => Except.ok (Option.some e)
      | Option.none => Except.error (("validation error for WebAction extract_type: ") ++ s)
  Except.ok
    { type := t
      selector := raw.selector
      text := raw.text
      url := raw.url
      wait_time := raw.wait_time
      scroll_direction := sd
      extract_type := et }

/-- The plan-production tail of LLMClient.generate_web_actions
(llm_client.py lines 46-55) applied to the decoded JSON array: construct
a WebAction from every element — the comprehension aborts at the first
construction failure, which the generic except re-raises as ValueError —
and filter the survivors through validation. -/
def actionsOfData (actions_data : List RawAction) : Except String (List WebAction) :=
  match actions_data.mapM webActionOfRaw with
  | Except.error e => Except.error (("Failed to generate actions: ") ++ e)
  | Except.ok actions => Except.ok (validate_actions actions)

/-- Which of the three browser resources a controller currently holds
(browser_controller.py fields page, browser, playwright, each Optional). -/
structure CtrlState where
  hasPage : Bool
  hasBrowser : Bool
  hasDriver : Bool
deriving DecidableEq, Repr

/-- Oracle for the three teardown driver calls in close(): Option.none
means the call succeeds, Option.some e that it raises e. -/
structure CloseOracle where
  pageCloseFail : Option String
  browserCloseFail : Option String
  driverStopFail : Option String
deriving DecidableEq, Repr

/-- BrowserController.close (lines 267-286): one try block covering all
three steps; each step runs only when its resource is set and clears it on
success; a raised error aborts the remaining steps (the field of the
failing step is left set, since the assignment follows the await) and is
re-raised after logging.  Returns the resulting state and the propagated
error, if any. -/
def closeRun (o : CloseOracle) (s : CtrlState) : CtrlState × Option String :=
  let step1 : CtrlState × Option String :=
    if s.hasPage then
      match o.pageCloseFail with
      | Option.some e => (s, Option.some e)
      | Option.none => ({ s with hasPage := false }, Option.none)
    else (s, Option.none)
  match step1 with
  | (s1, Option.some e) => (s1, Option.some e)
  | (s1, Option.none) =>
    let step2 : CtrlState × Option String :=
      if s1.hasBrowser then
        match o.browserCloseFail with
        | Option.some e => (s1, Option.some e)
        | Option.none => ({ s1 with hasBrowser := false }, Option.none)
      else (s1, Option.none)
    match step2 with
    | (s2, Option.some e) => (s2, Option.some e)
    | (s2, Option.none) =>
      if s2.hasDriver then
        match o.driverStopFail with
        | Option.some e => (s2, Option.some e)
        | Option.none => ({ s2 with hasDriver := false }, Option.none)
      else (s2, Option.none)

/-- A page oracle on which every driver call succeeds, used to
instantiate universally quantified theorems at a concrete input. -/
def pgOk : PageOracle where
  gotoFail := fun _ => Option.none
  pageUrl := "https://example.com/"
  click :=
    ⟨fun _ => Option.none, fun _ => Option.none, fun _ => Option.none,
      fun _ => Option.none, fun _ => Option.none⟩
  waitSelFail := fun _ => Option.none
  focusClickFail := fun _ => Option.none
  fillFail := Option.none
  evalScrollFail := Option.none
  shotFail := Option.none
  timestamp := "2026-01-01_00-00-00"
  querySelector := fun _ => Option.none
  queryFail := Option.none
  pageEvalFail := Option.none
  bodyText := "body"
  pageHtml := "<html></html>"
  linksVal := []

theorem foldl_append_eq_map {α β : Type} (f : α → β) (l : List α) (acc : List β) :
    l.foldl (fun rs a => rs ++ [f a]) acc = acc ++ l.map f := by
  induction l generalizing acc with
  | nil => simp
  | cons x xs ih => simp [List.foldl_cons, ih]

theorem foldl_append_eq_filter {α : Type} (p : α → Bool) (l : List α) (acc : List α) :
    l.foldl (fun rs a => if p a then rs ++ [a] else rs) acc = acc ++ l.filter p := by
  induction l generalizing acc with
  | nil => simp
  | cons x xs ih =>
    by_cases h : p x <;> simp [List.foldl_cons, h, ih]

theorem run_actions_eq_map (exec : WebAction → CommandResult) (actions : List WebAction) :
    run_actions exec actions = actions.map exec := by
  unfold run_actions
  simpa using foldl_append_eq_map exec actions []

theorem validate_actions_eq_filter (actions : List WebAction) :
    validate_actions actions = actions.filter (fun a => is_valid_action a) := by
  unfold validate_actions
  simpa using foldl_append_eq_filter (fun a => is_valid_action a) actions []

/-- C1: the claim as stated is false on the code — execute_task's status
computation has no guard that the total is positive, so a task whose
result list is empty ends with status completed (0 = 0), not failed. -/
theorem c1_empty_results_completed :
    computeStatus [] = TaskStatus.completed ∧ TaskStatus.completed ≠ TaskStatus.failed := by
  exact ⟨rfl, by decide⟩

/-- C1 (amended): the final status is failed exactly when no result
succeeded and the result list is non-empty; in every other case —
including the empty result list — it is completed. -/
theorem c1_status_aggregation (results : List CommandResult) :
    computeStatus results =
      (if results.countP (fun r => r.success) = 0 ∧ results.length ≠ 0
        then TaskStatus.failed else TaskStatus.completed) := by
  unfold computeStatus
  have hle : results.countP (fun r => r.success) ≤ results.length :=
    List.countP_le_length _
  dsimp only
  split_ifs <;> first | rfl | omega

set_option maxRecDepth 8000 in
/-- C2: the ordering half of the claim holds, but the error-message half
is false on the code — the initial plain-locator attempt's exception is
discarded by the bare except, so when every attempt fails the raised
message concatenates only the four fallback failure descriptions; here
the plain attempt's description P0 does not occur in the message at all. -/
theorem c2_plain_failure_not_reported :
    (clickRun
        ⟨fun _ => Option.some ("P0"), fun _ => Option.some ("E1"), fun _ => Option.some ("E2"),
          fun _ => Option.some ("E3"), fun _ => Option.some ("E4")⟩
        ("mybutton")).result =
      Except.error
        ("Failed to click element with provided selector and fallbacks. text exact failed: E1; text partial failed: E2; xpath failed: E3; role button exact failed: E4") ∧
    ¬ List.IsInfix (("P0").toList)
      (("Failed to click element with provided selector and fallbacks. text exact failed: E1; text partial failed: E2; xpath failed: E3; role button exact failed: E4").toList) := by
  exact ⟨rfl, by decide⟩

/-- C2 (amended): for a selector with no engine prefix, when the plain
attempt and all four fallbacks fail, the attempts run in exactly the
order plain, exact text, partial text, xpath, role button, and the raised
error concatenates the four fallback failure descriptions in that order —
the initial plain-locator failure is discarded and not part of the
message. -/
theorem c2_click_fallback_order (cp : ClickPage) (sel e0 e1 e2 e3 e4 : String)
    (hpref : hasEngine sel = false)
    (hp : cp.plainFail sel = Option.some e0)
    (h1 : cp.textExactFail (textCandidate sel) = Option.some e1)
    (h2 : cp.textPartFail (textCandidate sel) = Option.some e2)
    (h3 : cp.xpathFail (xpathSelector sel) = Option.some e3)
    (h4 : cp.roleBtnFail sel = Option.some e4) :
    (clickRun cp sel).trace =
      [ClickAttempt.plain, ClickAttempt.textExact, ClickAttempt.textPart,
        ClickAttempt.xpath, ClickAttempt.roleBtn] ∧
    (clickRun cp sel).result =
      Except.error (("Failed to click element with provided selector and fallbacks. ") ++
        String.intercalate ("; ")
          [("text exact failed: ") ++ e1, ("text partial failed: ") ++ e2,
            ("xpath failed: ") ++ e3, ("role button exact failed: ") ++ e4]) := by
  constructor <;> simp [clickRun, fbTry, hpref, hp, h1, h2, h3, h4]

/-- C2 witness: the amended theorem applied to a concrete page where
every attempt fails. -/
theorem c2_click_fallback_order_witness :
    hasEngine ("mybutton") = false ∧
    ((clickRun
        ⟨fun _ => Option.some ("P0"), fun _ => Option.some ("E1"), fun _ => Option.some ("E2"),
          fun _ => Option.some ("E3"), fun _ => Option.some ("E4")⟩
        ("mybutton")).trace =
      [ClickAttempt.plain, ClickAttempt.textExact, ClickAttempt.textPart,
        ClickAttempt.xpath, ClickAttempt.roleBtn] ∧
    (clickRun
        ⟨fun _ => Option.some ("P0"), fun _ => Option.some ("E1"), fun _ => Option.some ("E2"),
          fun _ => Option.some ("E3"), fun _ => Option.some ("E4")⟩
        ("mybutton")).result =
      Except.error (("Failed to click element with provided selector and fallbacks. ") ++
        String.intercalate ("; ")
          [("text exact failed: ") ++ ("E1"), ("text partial failed: ") ++ ("E2"),
            ("xpath failed: ") ++ ("E3"), ("role button exact failed: ") ++ ("E4")])) :=
  ⟨rfl,
    c2_click_fallback_order _ ("mybutton") ("P0") ("E1") ("E2") ("E3") ("E4")
      rfl rfl rfl rfl rfl rfl⟩

/-- C3: execute_action never propagates an error raised by a
sub-operation — for an initialized controller it always returns a result,
converting any dispatch error into a failed CommandResult carrying the
error's description — and the only propagating exception is the
not-initialized precondition failure raised when no page is set. -/
theorem c3_error_wrapping (pg : PageOracle) (action : WebAction) :
    (execute_action (Option.some pg) action).isOk = true ∧
    (∀ e, actionDispatch pg action = Except.error e →
      execute_action (Option.some pg) action =
        Except.ok
          { success := false, data := Option.none, error := Option.some e,
            screenshot := Option.none }) ∧
    execute_action Option.none action = Except.error ("Browser not initialized") := by
  refine ⟨?_, fun e he => ?_, rfl⟩
  · cases h : actionDispatch pg action <;> simp [execute_action, h, Except.isOk, Except.toBool]
  · simp [execute_action, he]

/-- C3 witness: a navigate action without a url makes the dispatch raise,
and execute_action converts that into a failed result. -/
theorem c3_error_wrapping_witness :
    actionDispatch pgOk { type := ActionType.navigate } =
      Except.error ("AttributeError: NoneType object has no attribute startswith") ∧
    execute_action (Option.some pgOk) { type := ActionType.navigate } =
      Except.ok
        { success := false, data := Option.none,
          error := Option.some ("AttributeError: NoneType object has no attribute startswith"),
          screenshot := Option.none } :=
  ⟨rfl, (c3_error_wrapping pgOk { type := ActionType.navigate }).2.1 _ rfl⟩

/-- C4: the claim as stated is false on the code — the three teardown
steps share one try block, so when closing the page fails the browser
close and driver stop are skipped (the browser resource stays held) and
the error propagates. -/
theorem c4_page_failure_skips_rest :
    closeRun ⟨Option.some ("page close failed"), Option.none, Option.none⟩ ⟨true, true, true⟩
      = (⟨true, true, true⟩, Option.some ("page close failed")) ∧
    (closeRun ⟨Option.some ("page close failed"), Option.none, Option.none⟩
        ⟨true, true, true⟩).1.hasBrowser = true ∧
    (closeRun ⟨Option.some ("page close failed"), Option.none, Option.none⟩
        ⟨true, true, true⟩).2 ≠ Option.none := by
  refine ⟨rfl, rfl, ?_⟩
  simp [closeRun]

/-- C4 (amended): close runs its three steps under a single guard — on a
never-initialized (or fully closed) controller it is a no-op raising
nothing, a page-close failure aborts the remaining steps and re-raises
with the state otherwise untouched, and only when every step succeeds are
all three resources released without an error. -/
theorem c4_close_single_guard :
    (∀ o : CloseOracle, closeRun o ⟨false, false, false⟩ = (⟨false, false, false⟩, Option.none)) ∧
    (∀ o : CloseOracle, ∀ s : CtrlState, ∀ e : String,
      s.hasPage = true → o.pageCloseFail = Option.some e → closeRun o s = (s, Option.some e)) ∧
    (∀ o : CloseOracle, ∀ s : CtrlState,
      o.pageCloseFail = Option.none → o.browserCloseFail = Option.none →
      o.driverStopFail = Option.none →
      closeRun o s = (⟨false, false, false⟩, Option.none)) := by
  refine ⟨fun o => rfl, fun o s e hp hf => ?_, fun o s h1 h2 h3 => ?_⟩
  · simp [closeRun, hp, hf]
  · rcases s with ⟨p, b, d⟩
    cases p <;> cases b <;> cases d <;> simp [closeRun, h1, h2, h3]

/-- C4 witness: the amended theorem applied to concrete oracles and
states for each of its three parts. -/
theorem c4_close_single_guard_witness :
    closeRun ⟨Option.none, Option.none, Option.none⟩ ⟨false, false, false⟩
      = (⟨false, false, false⟩, Option.none) ∧
    closeRun ⟨Option.some ("page is gone"), Option.none, Option.none⟩ ⟨true, true, true⟩
      = (⟨true, true, true⟩, Option.some ("page is gone")) ∧
    closeRun ⟨Option.none, Option.none, Option.none⟩ ⟨true, true, true⟩
      = (⟨false, false, false⟩, Option.none) :=
  ⟨c4_close_single_guard.1 _, c4_close_single_guard.2.1 _ _ _ rfl rfl,
    c4_close_single_guard.2.2 _ _ rfl rfl rfl⟩

/-- C7: actions execute strictly in plan order with one result appended
per action, so the produced result list is the pointwise image of the
action list: it has the same length and its i-th entry is the result of
the i-th action; no result value (in particular no failed one) changes
which later actions run. -/
theorem c7_ordered_execution (exec : WebAction → CommandResult) (actions : List WebAction) (i : Nat) :
    (run_actions exec actions).length = actions.length ∧
    (run_actions exec actions)[i]? = (actions[i]?).map exec := by
  rw [run_actions_eq_map]
  exact ⟨List.length_map actions exec, List.getElem?_map exec actions i⟩

/-- C8: the claim as stated is false on the code — from_env applies int()
to the raw environment strings without a guard, so a non-numeric
BROWSER_TIMEOUT makes loadFromEnvironment raise a ValueError. -/
theorem c8_nonnumeric_env_raises :
    from_env (fun name => if name == ("BROWSER_TIMEOUT") then Option.some ("abc") else Option.none)
      = Except.error ("invalid literal for int: abc") := by
  rfl

/-- C8 (amended): with no overriding variables set, loadFromEnvironment
succeeds with headless=false, timeout=30000, viewport 1920x1080 and log
level INFO (and an empty credential, construction not failing);
NODE_ENV=production flips headless to true; and the call never throws
provided each numeric variable, when present, parses as an integer. -/
theorem c8_defaults :
    (from_env (fun _ => Option.none) =
      Except.ok
        { openai_api_key := ""
          browser :=
            { headless := false, timeout := 30000, viewport_width := 1920, viewport_height := 1080 }
          logging := { level := "INFO" } }) ∧
    (from_env (fun name => if name == ("NODE_ENV") then Option.some ("production") else Option.none) =
      Except.ok
        { openai_api_key := ""
          browser :=
            { headless := true, timeout := 30000, viewport_width := 1920, viewport_height := 1080 }
          logging := { level := "INFO" } }) ∧
    (from_env (fun name => if name == ("OPENAI_API_KEY") then Option.some ("sk-test") else Option.none) =
      Except.ok
        { openai_api_key := "sk-test"
          browser :=
            { headless := false, timeout := 30000, viewport_width := 1920, viewport_height := 1080 }
          logging := { level := "INFO" } }) ∧
    (∀ env : Env, ∀ t w h : Int,
      pyParseInt (getenv env ("BROWSER_TIMEOUT") ("30000")) = Except.ok t →
      pyParseInt (getenv env ("VIEWPORT_WIDTH") ("1920")) = Except.ok w →
      pyParseInt (getenv env ("VIEWPORT_HEIGHT") ("1080")) = Except.ok h →
      from_env env = Except.ok
        { openai_api_key := getenv env ("OPENAI_API_KEY") ("")
          browser :=
            { headless := env ("NODE_ENV") == Option.some ("production")
              timeout := t
              viewport_width := w
              viewport_height := h }
          logging := { level := getenv env ("LOG_LEVEL") ("INFO") } }) := by
  refine ⟨rfl, ?_, ?_, fun env t w h h1 h2 h3 => ?_⟩
  · simp [from_env, getenv, pyParseInt, stripWs]
    rfl
  · simp [from_env, getenv, pyParseInt, stripWs]
    rfl
  · unfold from_env
    rw [h1, h2, h3]
    rfl

/-- C8 witness: the amended theorem applied to the empty environment. -/
theorem c8_defaults_witness :
    pyParseInt (getenv (fun _ => Option.none) ("BROWSER_TIMEOUT") ("30000")) = Except.ok 30000 ∧
    from_env (fun _ => Option.none) =
      Except.ok
        { openai_api_key := ""
          browser :=
            { headless := false, timeout := 30000, viewport_width := 1920, viewport_height := 1080 }
          logging := { level := "INFO" } } :=
  ⟨rfl, c8_defaults.2.2.2 (fun _ => Option.none) 30000 1920 1080 rfl rfl rfl⟩

theorem clickRun_result_ok (cp : ClickPage) (sel : String) (r : CommandResult)
    (h : (clickRun cp sel).result = Except.ok r) : r = clickSuccess sel := by
  unfold clickRun at h
  rcases hp : cp.plainFail sel with _ | e
  · rw [hp] at h
    dsimp only at h
    exact (Except.ok.inj h).symm
  · rw [hp] at h
    dsimp only at h
    repeat' split at h
    all_goals dsimp only at h
    all_goals first
      | exact (Except.ok.inj h).symm
      | exact Except.noConfusion h

theorem actionDispatch_ok (pg : PageOracle) (a : WebAction) (r : CommandResult)
    (h : actionDispatch pg a = Except.ok r) :
    r.success = true ∧ r.error = Option.none ∧
    (r.screenshot ≠ Option.none → a.type = ActionType.screenshot) := by
  rcases a with ⟨t, sel, tx, url, wt, sd, et⟩
  cases t
  case click =>
    simp only [actionDispatch] at h
    unfold clickSub at h
    split at h
    · exact Except.noConfusion h
    · have hr := clickRun_result_ok _ _ _ h
      subst hr
      exact ⟨rfl, rfl, fun hc => absurd rfl hc⟩
  all_goals
    simp only [actionDispatch, navigateRun, typeRun, scrollRun, waitRun, screenshotRun,
      extractRun] at h
  all_goals
    repeat' first
      | (split at h)
      | (dsimp only at h)
  all_goals first
    | exact Except.noConfusion h
    | (injection h with h2
       subst h2
       exact ⟨rfl, rfl, fun hc => absurd rfl hc⟩)
    | (injection h with h2
       subst h2
       exact ⟨rfl, rfl, fun _ => rfl⟩)

/-- C5: the claim as stated is false on the code — an action whose type
is not one of the seven known tags fails pydantic model construction
inside the list comprehension, so the whole plan generation raises: the
well-formed screenshot action in the same reply does not survive. -/
theorem c5_unknown_type_aborts_plan :
    actionsOfData [{ type := ("screenshot") }, { type := ("hover") }]
      = Except.error ("Failed to generate actions: validation error for WebAction type: hover") := by
  rfl

/-- C5 (amended): when every entry of the reply constructs a WebAction,
validation drops each invalid action individually (the plan is the
filtered survivor list, in order) and plan generation succeeds; but when
any entry fails model construction — an unknown type tag or an
out-of-range enum sub-field — the whole plan generation fails with a
single wrapped error. -/
theorem c5_validation :
    (∀ raws : List RawAction, ∀ acts : List WebAction,
      raws.mapM webActionOfRaw = Except.ok acts →
      actionsOfData raws = Except.ok (acts.filter (fun a => is_valid_action a))) ∧
    (∀ raws : List RawAction, ∀ e : String,
      raws.mapM webActionOfRaw = Except.error e →
      actionsOfData raws = Except.error (("Failed to generate actions: ") ++ e)) ∧
    (∀ acts : List WebAction, validate_actions acts = acts.filter (fun a => is_valid_action a)) := by
  refine ⟨fun raws acts h => ?_, fun raws e h => ?_, validate_actions_eq_filter⟩
  · unfold actionsOfData
    rw [h]
    dsimp only
    rw [validate_actions_eq_filter]
  · unfold actionsOfData
    rw [h]

/-- C5 witness: the amended theorem applied to a reply whose entries all
construct (a screenshot action and a url-less navigate action, the latter
dropped by validation) and to a reply with an unknown type tag. -/
theorem c5_validation_witness :
    List.mapM webActionOfRaw [{ type := ("screenshot") }, { type := ("navigate") }]
      = Except.ok [{ type := ActionType.screenshot }, { type := ActionType.navigate }] ∧
    actionsOfData [{ type := ("screenshot") }, { type := ("navigate") }]
      = Except.ok [{ type := ActionType.screenshot }] ∧
    List.mapM webActionOfRaw [({ type := ("hover") } : RawAction)]
      = Except.error ("validation error for WebAction type: hover") ∧
    actionsOfData [({ type := ("hover") } : RawAction)]
      = Except.error ("Failed to generate actions: validation error for WebAction type: hover") := by
  refine ⟨rfl, ?_, rfl, ?_⟩
  · exact c5_validation.1 [{ type := ("screenshot") }, { type := ("navigate") }]
      [{ type := ActionType.screenshot }, { type := ActionType.navigate }] rfl
  · exact c5_validation.2.1 [({ type := ("hover") } : RawAction)] _ rfl

/-- C6: the claim as stated is false on the code — a scroll action whose
scroll_direction is absent, and an extract action whose extract_type is
absent, are rejected by plan validation (None is not a member of the
enum), so from an LLM-generated plan they are dropped and never reach
execution. -/
theorem c6_absent_enum_dropped :
    is_valid_action { type := ActionType.scroll } = false ∧
    is_valid_action { type := ActionType.extract } = false ∧
    validate_actions [{ type := ActionType.scroll }, { type := ActionType.extract }] = [] := by
  exact ⟨rfl, rfl, rfl⟩

/-- C6 (amended): execute_action itself does substitute the defaults —
dispatching a scroll action with absent scroll_direction runs the scroll
sub-operation with direction down, and an extract action with absent
extract_type runs the extract sub-operation with type text, identically
to the explicit-field actions — but plan validation drops such actions,
so the defaults apply only to actions that bypass the LLM-plan
validation. -/
theorem c6_dispatch_defaults (pg : PageOracle) (sel : Option String) :
    actionDispatch pg { type := ActionType.scroll } = scrollRun pg ScrollDirection.down ∧
    actionDispatch pg { type := ActionType.scroll }
      = actionDispatch pg
          { type := ActionType.scroll, scroll_direction := Option.some ScrollDirection.down } ∧
    actionDispatch pg { type := ActionType.extract, selector := sel }
      = extractRun pg ExtractType.text sel ∧
    actionDispatch pg { type := ActionType.extract, selector := sel }
      = actionDispatch pg
          { type := ActionType.extract, selector := sel,
            extract_type := Option.some ExtractType.text } ∧
    is_valid_action { type := ActionType.scroll } = false ∧
    is_valid_action { type := ActionType.extract, selector := sel } = false :=
  ⟨rfl, rfl, rfl, rfl, rfl, rfl⟩

/-- C9: every result returned by execute_action carries an error only
when it failed, and carries a screenshot path only when it is the
successful result of a screenshot action; the orchestrator's synthetic
failure result likewise has success false, the error set, and no
screenshot. -/
theorem c9_result_field_invariant (pg : PageOracle) (a : WebAction) (r : CommandResult)
    (h : execute_action (Option.some pg) a = Except.ok r) :
    (r.error.isSome → r.success = false) ∧
    (r.screenshot.isSome → r.success = true ∧ a.type = ActionType.screenshot) ∧
    (∀ msg, (syntheticFailure msg).success = false ∧
      (syntheticFailure msg).error = Option.some msg ∧
      (syntheticFailure msg).screenshot = Option.none) := by
  simp only [execute_action] at h
  rcases hd : actionDispatch pg a with e | r0 <;> rw [hd] at h <;> injection h with h2 <;> subst h2
  · refine ⟨fun _ => rfl, fun hc => ?_, fun msg => ⟨rfl, rfl, rfl⟩⟩
    simp at hc
  · obtain ⟨hs, he, hsc⟩ := actionDispatch_ok pg a r0 hd
    refine ⟨fun hc => ?_, fun hc => ⟨hs, hsc (Option.ne_none_iff_isSome.mpr hc)⟩,
      fun msg => ⟨rfl, rfl, rfl⟩⟩
    rw [he] at hc
    simp at hc

/-- C9 witness: the invariant at a successful screenshot action. -/
theorem c9_result_field_invariant_witness :
    execute_action (Option.some pgOk) { type := ActionType.screenshot } =
      Except.ok
        { success := true
          data := Option.some
            [("filename", PyVal.s ("screenshot-2026-01-01_00-00-00.png")),
              ("path", PyVal.s ("screenshots/screenshot-2026-01-01_00-00-00.png"))]
          screenshot := Option.some ("screenshots/screenshot-2026-01-01_00-00-00.png") } ∧
    (((Option.some ("screenshots/screenshot-2026-01-01_00-00-00.png")).isSome = true) →
      (true = true ∧ ActionType.screenshot = ActionType.screenshot)) :=
  ⟨rfl,
    fun _ =>
      ⟨rfl,
        ((c9_result_field_invariant pgOk { type := ActionType.screenshot } _ rfl).2.1 rfl).2⟩⟩

/-- C10: a wait action with wait_time present but 0 is executed exactly
as if wait_time were absent — the falsy-or substitution puts in the
1000 ms default, and the successful result echoes wait_time 1000, not 0. -/
theorem c10_wait_zero_conflated (pg : PageOracle) :
    execute_action (Option.some pg) { type := ActionType.wait, wait_time := Option.some 0 }
        = execute_action (Option.some pg) { type := ActionType.wait } ∧
    execute_action (Option.some pg) { type := ActionType.wait, wait_time := Option.some 0 }
        = Except.ok { success := true, data := Option.some [(("wait_time"), PyVal.i 1000)] } :=
  ⟨rfl, rfl⟩

end DeskGPT
